import Mathlib

/-!
Shallow embedding of the TEE attestation core of the repository
(`near-solver/src/tee/`): the `TeeType` taxonomy (`types.rs`), the error
taxonomy (`errors.rs`), the attestation entity and its lifecycle
(`attestation_data.rs`), the signature-verification dispatcher
(`signature_verification_wasm.rs`) and the registry (`registry_impl.rs`).

Rust strings are modelled as `List Char`; `u64` values as `Nat`, with an
explicit `% 2 ^ 64` wherever the Rust code performs arithmetic that can
overflow.  `HashMap<String, String>` metadata and the NEAR `LookupMap`s are
modelled as association lists (no claim depends on iteration order of the
metadata map; the `UnorderedSet` key sets are insertion-ordered, matching
NEAR's behaviour for freshly created sets).  The host environment
(`env::block_timestamp`, `env::signer_account_id`) is passed explicitly.
-/

deriving instance DecidableEq for Except

namespace TeeCore

/-- Rust `String`, modelled structurally as its list of characters. -/
abbrev Str := List Char

/-- `u64` wrap-around: Rust release-mode integer arithmetic is modulo `2 ^ 64`. -/
def u64wrap (x : Nat) : Nat := x % 2 ^ 64

/-- Model of Rust `str::to_lowercase` (per-character lowering; the Unicode
special cases do not affect any string compared against the ASCII literals
below, whose first characters are plain ASCII letters). -/
def strToLower (s : Str) : Str := s.map Char.toLower

/-! ## Association-list model of `HashMap` / `LookupMap` -/

/-- `contains_key` on a string-keyed map. -/
def alistContains {α : Type} (m : List (Str × α)) (k : Str) : Bool :=
  m.any (fun p => p.1 == k)

/-- `get` on a string-keyed map. -/
def alistGet {α : Type} (m : List (Str × α)) (k : Str) : Option α :=
  (m.find? (fun p => p.1 == k)).map Prod.snd

/-- `insert` on a string-keyed map: overwrites the existing entry for the key,
otherwise appends. -/
def alistInsert {α : Type} : List (Str × α) → Str → α → List (Str × α)
  | [], k, v => [(k, v)]
  | p :: rest, k, v =>
    if p.1 == k then (k, v) :: rest else p :: alistInsert rest k v

/-- `UnorderedSet::insert`: appends the element if it is not yet present. -/
def setInsert (s : List Str) (k : Str) : List Str :=
  if s.contains k then s else s ++ [k]

/-- Attestation metadata: Rust `HashMap<String, String>`. -/
abbrev Metadata := List (Str × Str)

/-! ## `types.rs`: the TEE-type taxonomy -/

/-- `TeeType` (`types.rs`): the closed variant set of supported TEE schemes,
with `Other` carrying a free-form name. -/
inductive TeeType : Type
  | Sgx
  | Sev
  | TrustZone
  | Asylo
  | AzureAttestation
  | AwsNitro
  | Other (name : Str)
  deriving DecidableEq, Repr

namespace TeeType

/-- `TeeType::as_str` (`types.rs`): canonical lower-case name; `Other` yields
its payload unchanged. -/
def asStr : TeeType → Str
  | Sgx => "sgx".data
  | Sev => "sev".data
  | TrustZone => "trustzone".data
  | Asylo => "asylo".data
  | AzureAttestation => "azure_attestation".data
  | AwsNitro => "aws_nitro".data
  | Other s => s

/-- `impl fmt::Display for TeeType` (`types.rs`): `Other(s)` formats as
`other:<s>`, every named variant as its `as_str`. -/
def display : TeeType → Str
  | Other s => "other:".data ++ s
  | t => t.asStr

/-- `TeeType::is_production_ready` (`types.rs`). -/
def isProductionReady : TeeType → Bool
  | Sgx | Sev | TrustZone => true
  | _ => false

/-- `TeeType::is_cloud_based` (`types.rs`). -/
def isCloudBased : TeeType → Bool
  | AzureAttestation | AwsNitro => true
  | _ => false

/-- `impl FromStr for TeeType` (`types.rs`): case-insensitive match on the
canonical names, then the `other:` guard on the original (un-lowercased)
string, else the `Invalid TEE type: {s}` error message. -/
def fromStr (s : Str) : Except Str TeeType :=
  let l := strToLower s
  if l = "sgx".data then .ok Sgx
  else if l = "sev".data then .ok Sev
  else if l = "trustzone".data ∨ l = "trust_zone".data then .ok TrustZone
  else if l = "asylo".data then .ok Asylo
  else if l = "azure_attestation".data ∨ l = "azure".data then .ok AzureAttestation
  else if l = "aws_nitro".data ∨ l = "nitro".data then .ok AwsNitro
  else if "other:".data.isPrefixOf s then .ok (Other (s.drop 6))
  else .error ("Invalid TEE type: ".data ++ s)

end TeeType

/-! ## `errors.rs`: the error taxonomy -/

/-- `TeeAttestationError` (`errors.rs`), with each variant's structured
context fields in source order. -/
inductive TeeAttestationError : Type
  | Expired (public_key : Str) (expired_at : Nat) (current_time : Nat)
  | InvalidSignature (public_key : Str) (details : Str)
  | InvalidReport (details : Str)
  | NotFound (public_key : Str)
  | Revoked (public_key : Str) (at_time : Nat)
  | Unauthorized (caller : Str) (required : Str)
  | Paused
  | NotPaused
  | AlreadyExists (public_key : Str)
  | InvalidTeeType (tee_type : Str)
  | MissingMetadata (field : Str) (tee_type : Str)
  | InvalidMetadata (field : Str) (value : Str) (expected : Str)
  | NotActive (public_key : Str)
  | InvalidExpiration (expires_at : Nat) (current_time : Nat)
  | Internal (message : Str)
  deriving DecidableEq, Repr

/-! ## Byte-level primitives used by the signature-verification module

The Rust code delegates to the `base64`, `sha2`, `p256` and
`ed25519-compact` crates.  These dependencies are modelled executably below:
byte strings are `List Nat` with every element `< 256`. -/

/-- A decoded byte string. -/
abbrev Bytes := List Nat

/-- Big-endian interpretation of a byte string. -/
def bytesToNat (bs : Bytes) : Nat := bs.foldl (fun acc b => acc * 256 + b) 0

/-- Big-endian encoding of `x` into exactly `k` bytes (most significant
first; higher bits of `x` are discarded). -/
def natToBytesBE : Nat → Nat → Bytes
  | 0, _ => []
  | k + 1, x => natToBytesBE k (x / 256) ++ [x % 256]

/-- Value of one character of the standard base64 alphabet. -/
def b64CharVal (c : Char) : Option Nat :=
  if 'A' ≤ c ∧ c ≤ 'Z' then some (c.toNat - 65)
  else if 'a' ≤ c ∧ c ≤ 'z' then some (c.toNat - 97 + 26)
  else if '0' ≤ c ∧ c ≤ '9' then some (c.toNat - 48 + 52)
  else if c = '+' then some 62
  else if c = '/' then some 63
  else none

/-- Model of `base64::engine::general_purpose::STANDARD.decode`: standard
alphabet, canonical `=` padding required (so the input length is a multiple
of four and padding only closes the final quantum), and the unused trailing
bits of a partial final quantum must be zero. -/
def base64Decode : Str → Option Bytes
  | [] => some []
  | a :: b :: c :: d :: rest =>
    match b64CharVal a, b64CharVal b with
    | some va, some vb =>
      if c = '=' then
        if d = '=' ∧ rest = [] then
          if vb % 16 = 0 then some [va * 4 + vb / 16] else none
        else none
      else
        match b64CharVal c with
        | some vc =>
          if d = '=' then
            if rest = [] then
              if vc % 4 = 0 then
                some [va * 4 + vb / 16, vb % 16 * 16 + vc / 4]
              else none
            else none
          else
            match b64CharVal d with
            | some vd =>
              match base64Decode rest with
              | some tail =>
                some ((va * 4 + vb / 16) :: (vb % 16 * 16 + vc / 4) ::
                      (vc % 4 * 64 + vd) :: tail)
              | none => none
            | none => none
        | none => none
    | _, _ => none
  | _ => none

/-! ### SHA-2 (`sha2` crate)

The round constants and initial hash values are the fractional parts of the
cube and square roots of the first primes; they are computed here rather
than transcribed. -/

/-- Bounded binary search for the integer cube root. -/
def cbrtSearch (n : Nat) : Nat → Nat → Nat → Nat
  | lo, _, 0 => lo
  | lo, hi, fuel + 1 =>
    let mid := (lo + hi + 1) / 2
    if mid ^ 3 ≤ n then cbrtSearch n mid hi fuel else cbrtSearch n lo (mid - 1) fuel

/-- Integer cube root: the largest `c` with `c ^ 3 ≤ n` (for `n < 2 ^ 512`). -/
def natCbrt (n : Nat) : Nat := cbrtSearch n 0 n 512

/-- The first `k` primes. -/
def firstPrimes (k : Nat) : List Nat :=
  ((List.range 2048).filter (fun i => decide (Nat.Prime i))).take k

/-- SHA-256 round constants. -/
def sha256K : List Nat := (firstPrimes 64).map (fun p => natCbrt (p * 2 ^ 96) % 2 ^ 32)

/-- SHA-256 initial hash value. -/
def sha256H0 : List Nat := (firstPrimes 8).map (fun p => Nat.sqrt (p * 2 ^ 64) % 2 ^ 32)

/-- Right rotation of a `w`-bit word. -/
def rotr (w n x : Nat) : Nat := x / 2 ^ n + x % 2 ^ n * 2 ^ (w - n)

/-- Bitwise complement of a `w`-bit word. -/
def bitNot (w x : Nat) : Nat := 2 ^ w - 1 - x

/-- SHA-2 padding: append `0x80`, zeros, and the `lenBytes`-byte big-endian
bit length, reaching a multiple of `chunkBytes`. -/
def shaPad (chunkBytes lenBytes : Nat) (m : Bytes) : Bytes :=
  m ++ 128 :: List.replicate
      ((2 * chunkBytes - lenBytes - (m.length + 1) % chunkBytes) % chunkBytes) 0
    ++ natToBytesBE lenBytes (8 * m.length)

/-- Split a byte string into chunks of `k` bytes (`k > 0`). -/
def chunks (k : Nat) (l : Bytes) : List Bytes :=
  if h : l = [] ∨ k = 0 then [] else l.take k :: chunks k (l.drop k)
  termination_by l.length
  decreasing_by
    simp only [not_or] at h
    have hl : 0 < l.length := List.length_pos.mpr h.1
    simp [List.length_drop]
    omega

/-- SHA-256 message schedule extension step. -/
def sha256Ext (w : List Nat) (i : Nat) : Nat :=
  let g := fun j => w.getD (i - j) 0
  let s0 := (rotr 32 7 (g 15)).xor ((rotr 32 18 (g 15)).xor (g 15 / 2 ^ 3))
  let s1 := (rotr 32 17 (g 2)).xor ((rotr 32 19 (g 2)).xor (g 2 / 2 ^ 10))
  (g 16 + s0 + g 7 + s1) % 2 ^ 32

/-- SHA-256 message schedule of one 64-byte chunk. -/
def sha256Schedule (chunk : Bytes) : List Nat :=
  let w0 := (chunks 4 chunk).map bytesToNat
  (List.range 48).foldl (fun w i => w ++ [sha256Ext w (16 + i)]) w0

/-- One round of the SHA-256 compression function. -/
def sha256Round (st : Nat × Nat × Nat × Nat × Nat × Nat × Nat × Nat)
    (kw : Nat × Nat) : Nat × Nat × Nat × Nat × Nat × Nat × Nat × Nat :=
  let (a, b, c, d, e, f, g, h) := st
  let s1 := (rotr 32 6 e).xor ((rotr 32 11 e).xor (rotr 32 25 e))
  let ch := (e.land f).xor ((bitNot 32 e).land g)
  let t1 := (h + s1 + ch + kw.1 + kw.2) % 2 ^ 32
  let s0 := (rotr 32 2 a).xor ((rotr 32 13 a).xor (rotr 32 22 a))
  let mj := (a.land b).xor ((a.land c).xor (b.land c))
  let t2 := (s0 + mj) % 2 ^ 32
  ((t1 + t2) % 2 ^ 32, a, b, c, (d + t1) % 2 ^ 32, e, f, g)

/-- SHA-256 compression of one chunk into the running hash (8 words). -/
def sha256Compress (hs : List Nat) (chunk : Bytes) : List Nat :=
  let w := sha256Schedule chunk
  let g := fun j => hs.getD j 0
  let init := (g 0, g 1, g 2, g 3, g 4, g 5, g 6, g 7)
  let fin := (sha256K.zip w).foldl sha256Round init
  let (a, b, c, d, e, f, gg, h) := fin
  (List.zip hs [a, b, c, d, e, f, gg, h]).map (fun p => (p.1 + p.2) % 2 ^ 32)

/-- `Sha256::digest` (`sha2` crate): the 32-byte SHA-256 hash. -/
def sha256 (m : Bytes) : Bytes :=
  ((chunks 64 (shaPad 64 8 m)).foldl sha256Compress sha256H0).flatMap
    (natToBytesBE 4)

/-- SHA-512 round constants. -/
def sha512K : List Nat := (firstPrimes 80).map (fun p => natCbrt (p * 2 ^ 192) % 2 ^ 64)

/-- SHA-512 initial hash value. -/
def sha512H0 : List Nat := (firstPrimes 8).map (fun p => Nat.sqrt (p * 2 ^ 128) % 2 ^ 64)

/-- SHA-512 message schedule extension step. -/
def sha512Ext (w : List Nat) (i : Nat) : Nat :=
  let g := fun j => w.getD (i - j) 0
  let s0 := (rotr 64 1 (g 15)).xor ((rotr 64 8 (g 15)).xor (g 15 / 2 ^ 7))
  let s1 := (rotr 64 19 (g 2)).xor ((rotr 64 61 (g 2)).xor (g 2 / 2 ^ 6))
  (g 16 + s0 + g 7 + s1) % 2 ^ 64

/-- SHA-512 message schedule of one 128-byte chunk. -/
def sha512Schedule (chunk : Bytes) : List Nat :=
  let w0 := (chunks 8 chunk).map bytesToNat
  (List.range 64).foldl (fun w i => w ++ [sha512Ext w (16 + i)]) w0

/-- One round of the SHA-512 compression function. -/
def sha512Round (st : Nat × Nat × Nat × Nat × Nat × Nat × Nat × Nat)
    (kw : Nat × Nat) : Nat × Nat × Nat × Nat × Nat × Nat × Nat × Nat :=
  let (a, b, c, d, e, f, g, h) := st
  let s1 := (rotr 64 14 e).xor ((rotr 64 18 e).xor (rotr 64 41 e))
  let ch := (e.land f).xor ((bitNot 64 e).land g)
  let t1 := (h + s1 + ch + kw.1 + kw.2) % 2 ^ 64
  let s0 := (rotr 64 28 a).xor ((rotr 64 34 a).xor (rotr 64 39 a))
  let mj := (a.land b).xor ((a.land c).xor (b.land c))
  let t2 := (s0 + mj) % 2 ^ 64
  ((t1 + t2) % 2 ^ 64, a, b, c, (d + t1) % 2 ^ 64, e, f, g)

/-- SHA-512 compression of one chunk into the running hash (8 words). -/
def sha512Compress (hs : List Nat) (chunk : Bytes) : List Nat :=
  let w := sha512Schedule chunk
  let g := fun j => hs.getD j 0
  let init := (g 0, g 1, g 2, g 3, g 4, g 5, g 6, g 7)
  let fin := (sha512K.zip w).foldl sha512Round init
  let (a, b, c, d, e, f, gg, h) := fin
  (List.zip hs [a, b, c, d, e, f, gg, h]).map (fun p => (p.1 + p.2) % 2 ^ 64)

/-- SHA-512 of a byte string (64-byte hash), used by Ed25519. -/
def sha512 (m : Bytes) : Bytes :=
  ((chunks 128 (shaPad 128 16 m)).foldl sha512Compress sha512H0).flatMap
    (natToBytesBE 8)

/-! ### NIST P-256 ECDSA (`p256` / `ecdsa` crates) -/

/-- Modular exponentiation by squaring. -/
def powMod (a e m : Nat) : Nat :=
  if e = 0 then 1 % m
  else
    let h := powMod (a * a % m) (e / 2) m
    if e % 2 = 1 then a * h % m else h
  termination_by e
  decreasing_by exact Nat.div_lt_self (Nat.pos_of_ne_zero (by assumption)) one_lt_two

/-- Modular inverse in the prime field `ℤ/m` via Fermat's little theorem. -/
def invMod (a m : Nat) : Nat := powMod a (m - 2) m

/-- The P-256 field prime. -/
def p256P : Nat :=
  0xffffffff00000001000000000000000000000000ffffffffffffffffffffffff

/-- The P-256 group order. -/
def p256N : Nat :=
  0xffffffff00000000ffffffffffffffffbce6faada7179e84f3b9cac2fc632551

/-- The P-256 curve coefficient `b` (the coefficient `a` is `-3`). -/
def p256B : Nat :=
  0x5ac635d8aa3a93e7b3ebbd55769886bc651d06b0cc53b0f63bce3c3e27d2604b

/-- x-coordinate of the P-256 base point. -/
def p256Gx : Nat :=
  0x6b17d1f2e12c4247f8bce6e563a440f277037d812deb33a0f4a13945d898c296

/-- y-coordinate of the P-256 base point. -/
def p256Gy : Nat :=
  0x4fe342e2fe1a7f9b8ee7eb4a7c0f9e162bce33576b315ececbb6406837bf51f5

/-- A P-256 point: `none` is the point at infinity. -/
abbrev P256Point := Option (Nat × Nat)

/-- The P-256 curve equation `y² = x³ - 3x + b` over `ℤ/p256P`. -/
def p256OnCurve (x y : Nat) : Bool :=
  y * y % p256P = (x * x % p256P * x + (p256P - 3) * x + p256B) % p256P

/-- Affine point addition on P-256 (coordinates reduced modulo `p256P`). -/
def p256Add : P256Point → P256Point → P256Point
  | none, q => q
  | p, none => p
  | some (x1, y1), some (x2, y2) =>
    if x1 % p256P = x2 % p256P then
      if (y1 + y2) % p256P = 0 then none
      else
        let lam := (3 * (x1 * x1 % p256P) + p256P - 3) % p256P *
          invMod (2 * y1 % p256P) p256P % p256P
        let x3 := (lam * lam % p256P + (p256P - x1 % p256P) + (p256P - x2 % p256P)) % p256P
        some (x3, (lam * ((x1 + p256P - x3) % p256P) % p256P + (p256P - y1 % p256P)) % p256P)
    else
      let lam := (y2 + p256P - y1 % p256P) % p256P *
        invMod ((x2 + p256P - x1 % p256P) % p256P) p256P % p256P
      let x3 := (lam * lam % p256P + (p256P - x1 % p256P) + (p256P - x2 % p256P)) % p256P
      some (x3, (lam * ((x1 + p256P - x3) % p256P) % p256P + (p256P - y1 % p256P)) % p256P)

/-- Scalar multiplication on P-256 by binary decomposition. -/
def p256ScalarMul (k : Nat) (pt : P256Point) : P256Point :=
  if k = 0 then none
  else
    let h := p256ScalarMul (k / 2) pt
    let d := p256Add h h
    if k % 2 = 1 then p256Add d pt else d
  termination_by k
  decreasing_by exact Nat.div_lt_self (Nat.pos_of_ne_zero (by assumption)) one_lt_two

/-- `EncodedPoint::from_bytes` (`p256` crate) restricted to the uncompressed
SEC1 form `04 ‖ x ‖ y` (65 bytes), which is the only form the repository's
inputs use; other SEC1 forms are rejected like any malformed encoding. -/
def p256EncodedPointFromBytes (bs : Bytes) : Option (Nat × Nat) :=
  match bs with
  | 4 :: rest =>
    if rest.length = 64 then
      some (bytesToNat (rest.take 32), bytesToNat (rest.drop 32))
    else none
  | _ => none

/-- `VerifyingKey::from_encoded_point` (`p256` crate): both coordinates must
be canonical field elements and the point must satisfy the curve equation. -/
def p256VerifyingKeyFromEncodedPoint (q : Nat × Nat) : Option (Nat × Nat) :=
  if q.1 < p256P ∧ q.2 < p256P ∧ p256OnCurve q.1 q.2 then some q else none

/-- `Signature::try_from(&[u8])` (`ecdsa` crate): the fixed-width 64-byte
compact encoding `r ‖ s` with both halves nonzero scalars below the group
order.  This conversion never parses ASN.1/DER. -/
def p256SignatureFromSlice (bs : Bytes) : Option (Nat × Nat) :=
  if bs.length = 64 then
    let r := bytesToNat (bs.take 32)
    let s := bytesToNat (bs.drop 32)
    if 0 < r ∧ r < p256N ∧ 0 < s ∧ s < p256N then some (r, s) else none
  else none

/-- ECDSA P-256 verification of `(r, s)` on a 32-byte prehash. -/
def ecdsaP256Verify (q : Nat × Nat) (hash : Bytes) (r s : Nat) : Bool :=
  let e := bytesToNat hash
  let w := invMod s p256N
  let u1 := e * w % p256N
  let u2 := r * w % p256N
  match p256Add (p256ScalarMul u1 (some (p256Gx, p256Gy)))
      (p256ScalarMul u2 (some q)) with
  | none => false
  | some (x, _) => x % p256N == r

/-! ### Ed25519 (`ed25519-compact` crate), at RFC 8032 level -/

/-- The Curve25519 field prime `2 ^ 255 - 19`. -/
def ed25519P : Nat := 2 ^ 255 - 19

/-- The Ed25519 group order. -/
def ed25519L : Nat := 2 ^ 252 + 27742317777372353535851937790883648493

/-- The twisted-Edwards coefficient `d = -121665 / 121666`. -/
def ed25519D : Nat := (ed25519P - 121665) * invMod 121666 ed25519P % ed25519P

/-- Complete twisted-Edwards addition (`a = -1`); `(0, 1)` is the identity. -/
def edAdd (pt1 pt2 : Nat × Nat) : Nat × Nat :=
  let p := ed25519P
  let t := ed25519D * pt1.1 % p * pt2.1 % p * pt1.2 % p * pt2.2 % p
  ((pt1.1 * pt2.2 % p + pt1.2 * pt2.1 % p) % p * invMod ((1 + t) % p) p % p,
   (pt1.2 * pt2.2 % p + pt1.1 * pt2.1 % p) % p * invMod ((1 + p - t) % p) p % p)

/-- Scalar multiplication on the Edwards curve. -/
def edScalarMul (k : Nat) (pt : Nat × Nat) : Nat × Nat :=
  if k = 0 then (0, 1)
  else
    let h := edScalarMul (k / 2) pt
    let d := edAdd h h
    if k % 2 = 1 then edAdd d pt else d
  termination_by k
  decreasing_by exact Nat.div_lt_self (Nat.pos_of_ne_zero (by assumption)) one_lt_two

/-- Recover the x-coordinate with the given sign bit from a y-coordinate
(RFC 8032 point decompression). -/
def edXRecover (y sign : Nat) : Option Nat :=
  let p := ed25519P
  let u := (y * y % p + p - 1) % p
  let v := (ed25519D * (y * y % p) % p + 1) % p
  let cand := u * powMod v 3 p % p * powMod (u * powMod v 7 p % p) ((p - 5) / 8) p % p
  let x0 :=
    if v * (cand * cand % p) % p = u then some cand
    else if v * (cand * cand % p) % p = (p - u) % p then
      some (cand * powMod 2 ((p - 1) / 4) p % p)
    else none
  match x0 with
  | none => none
  | some x =>
    if x = 0 ∧ sign = 1 then none
    else some (if x % 2 = sign then x else p - x)

/-- Decompress a 32-byte little-endian encoded Edwards point. -/
def edDecompress (bs : Bytes) : Option (Nat × Nat) :=
  let n := bytesToNat bs.reverse
  let sign := n / 2 ^ 255
  let y := n % 2 ^ 255
  if y ≥ ed25519P then none
  else (edXRecover y sign).map (fun x => (x, y))

/-- The Ed25519 base point (`y = 4/5`, even `x`). -/
def ed25519B : Nat × Nat :=
  let y := 4 * invMod 5 ed25519P % ed25519P
  ((edXRecover y 0).getD 0, y)

/-- Ed25519 signature verification (RFC 8032): decompress the key and the
first half of the signature, require a canonical scalar `s`, and check
`s·B = R + SHA-512(R ‖ A ‖ msg)·A`. -/
def ed25519Verify (pk msg sig : Bytes) : Bool :=
  if pk.length = 32 ∧ sig.length = 64 then
    match edDecompress pk, edDecompress (sig.take 32) with
    | some a, some r =>
      let s := bytesToNat (sig.drop 32).reverse
      if s < ed25519L then
        let h := bytesToNat (sha512 (sig.take 32 ++ pk ++ msg)).reverse % ed25519L
        edScalarMul s ed25519B == edAdd r (edScalarMul h a)
      else false
    | _, _ => false
  else false

/-! ## `signature_verification_wasm.rs`: the dispatcher and per-scheme verifiers -/

/-- First entry of `fields` missing from `m` (the per-type required-field
loops in the source report the first missing field, in array order). -/
def firstMissingField (fields : List Str) (m : Metadata) : Option Str :=
  fields.find? (fun f => !alistContains m f)

/-- The SGX required-metadata array, as it appears both in
`attestation_data.rs` (`validate_tee_metadata`) and in
`signature_verification_wasm.rs` (`verify_sgx_signature`). -/
def sgxRequiredFields : List Str :=
  ["sgx_mr_enclave".data, "sgx_mr_signer".data, "sgx_isv_prod_id".data,
   "sgx_isv_svn".data]

/-- The base64-decode / SHA-256 / P-256-parse / ECDSA-verify tail shared
verbatim by the five ECDSA verifiers; `pkDetail` and `sigDetail` are the
per-verifier base64 error details (SGX words them differently). -/
def ecdsaVerifyTail (pkDetail sigDetail : Str)
    (public_key report signature : Str) : Except TeeAttestationError Unit :=
  match base64Decode public_key with
  | none => .error (.InvalidSignature public_key pkDetail)
  | some public_key_bytes =>
    match base64Decode report with
    | none => .error (.InvalidReport "Invalid base64 encoding in report".data)
    | some report_bytes =>
      match base64Decode signature with
      | none => .error (.InvalidSignature public_key sigDetail)
      | some signature_bytes =>
        match p256EncodedPointFromBytes public_key_bytes with
        | none => .error (.InvalidSignature public_key
            "Invalid P-256 public key encoding".data)
        | some ep =>
          match p256VerifyingKeyFromEncodedPoint ep with
          | none => .error (.InvalidSignature public_key
              "Invalid P-256 public key point".data)
          | some verifying_key =>
            match p256SignatureFromSlice signature_bytes with
            | none => .error (.InvalidSignature public_key
                "Invalid ECDSA P-256 signature format".data)
            | some rs =>
              if ecdsaP256Verify verifying_key (sha256 report_bytes) rs.1 rs.2
              then .ok ()
              else .error (.InvalidSignature public_key
                  "ECDSA P-256 signature verification failed".data)

/-- `verify_sgx_signature` (`signature_verification_wasm.rs`). -/
def verify_sgx_signature (public_key report signature : Str)
    (metadata : Metadata) : Except TeeAttestationError Unit :=
  if public_key = [] then
    .error (.InvalidSignature public_key "Public key cannot be empty".data)
  else if signature = [] then
    .error (.InvalidSignature public_key "Signature cannot be empty".data)
  else
    match firstMissingField sgxRequiredFields metadata with
    | some f => .error (.MissingMetadata f "SGX".data)
    | none =>
      let tail := ecdsaVerifyTail "Invalid base64 encoding in public key".data
        "Invalid base64 encoding in signature".data public_key report signature
      match alistGet metadata "sgx_mr_enclave".data with
      | some mr_enclave =>
        if mr_enclave.length ≠ 64 then
          .error (.InvalidMetadata "sgx_mr_enclave".data mr_enclave
            "64-character hex string".data)
        else tail
      | none => tail

/-- `verify_sev_signature` (`signature_verification_wasm.rs`). -/
def verify_sev_signature (public_key report signature : Str)
    (metadata : Metadata) : Except TeeAttestationError Unit :=
  if public_key = [] ∨ signature = [] then
    .error (.InvalidSignature public_key
      "Public key and signature cannot be empty".data)
  else
    match firstMissingField
        ["sev_policy".data, "sev_family_id".data, "sev_image_id".data] metadata with
    | some f => .error (.MissingMetadata f "SEV".data)
    | none => ecdsaVerifyTail "Invalid base64 public key".data
        "Invalid base64 signature".data public_key report signature

/-- `verify_trustzone_signature` (`signature_verification_wasm.rs`). -/
def verify_trustzone_signature (public_key report signature : Str)
    (metadata : Metadata) : Except TeeAttestationError Unit :=
  if public_key = [] ∨ signature = [] then
    .error (.InvalidSignature public_key
      "Public key and signature cannot be empty".data)
  else
    match firstMissingField
        ["tz_secure_version".data, "tz_non_secure_version".data] metadata with
    | some f => .error (.MissingMetadata f "TrustZone".data)
    | none => ecdsaVerifyTail "Invalid base64 public key".data
        "Invalid base64 signature".data public_key report signature

/-- `verify_asylo_signature` (`signature_verification_wasm.rs`): Ed25519 over
the raw report bytes.  The `from_slice` conversions of `ed25519-compact`
only require the lengths already checked here, so their error arms are
unreachable and all verification-stage failures surface as the single
`Ed25519 signature verification failed` error. -/
def verify_asylo_signature (public_key report signature : Str)
    (metadata : Metadata) : Except TeeAttestationError Unit :=
  if public_key = [] ∨ signature = [] then
    .error (.InvalidSignature public_key
      "Public key and signature cannot be empty".data)
  else
    match firstMissingField
        ["asylo_enclave_hash".data, "asylo_enclave_version".data] metadata with
    | some f => .error (.MissingMetadata f "Asylo".data)
    | none =>
      match base64Decode public_key with
      | none => .error (.InvalidSignature public_key
          "Invalid base64 public key".data)
      | some public_key_bytes =>
        match base64Decode report with
        | none => .error (.InvalidReport "Invalid base64 encoding in report".data)
        | some report_bytes =>
          match base64Decode signature with
          | none => .error (.InvalidSignature public_key
              "Invalid base64 signature".data)
          | some signature_bytes =>
            if public_key_bytes.length ≠ 32 then
              .error (.InvalidSignature public_key
                "Ed25519 public key must be 32 bytes".data)
            else if signature_bytes.length ≠ 64 then
              .error (.InvalidSignature public_key
                "Ed25519 signature must be 64 bytes".data)
            else if ed25519Verify public_key_bytes report_bytes signature_bytes then
              .ok ()
            else
              .error (.InvalidSignature public_key
                "Ed25519 signature verification failed".data)

/-- `verify_azure_signature` (`signature_verification_wasm.rs`). -/
def verify_azure_signature (public_key report signature : Str)
    (metadata : Metadata) : Except TeeAttestationError Unit :=
  if public_key = [] ∨ signature = [] then
    .error (.InvalidSignature public_key
      "Public key and signature cannot be empty".data)
  else
    match firstMissingField
        ["azure_tenant_id".data, "azure_client_id".data] metadata with
    | some f => .error (.MissingMetadata f "Azure".data)
    | none => ecdsaVerifyTail "Invalid base64 public key".data
        "Invalid base64 signature".data public_key report signature

/-- `verify_aws_nitro_signature` (`signature_verification_wasm.rs`). -/
def verify_aws_nitro_signature (public_key report signature : Str)
    (metadata : Metadata) : Except TeeAttestationError Unit :=
  if public_key = [] ∨ signature = [] then
    .error (.InvalidSignature public_key
      "Public key and signature cannot be empty".data)
  else
    match firstMissingField
        ["nitro_pcr0".data, "nitro_pcr1".data, "nitro_pcr2".data] metadata with
    | some f => .error (.MissingMetadata f "AWS Nitro".data)
    | none => ecdsaVerifyTail "Invalid base64 public key".data
        "Invalid base64 signature".data public_key report signature

/-- `verify_generic_signature` (`signature_verification_wasm.rs`): for the
four recognised `signature_algorithm` values the source returns `Ok(())`
directly, with verification left as a `TODO`. -/
def verify_generic_signature (public_key _report signature : Str)
    (metadata : Metadata) : Except TeeAttestationError Unit :=
  if public_key = [] ∨ signature = [] then
    .error (.InvalidSignature public_key
      "Public key and signature cannot be empty".data)
  else
    match alistGet metadata "signature_algorithm".data with
    | some algorithm =>
      if algorithm = "ECDSA-P256".data ∨ algorithm = "ECDSA-P384".data ∨
          algorithm = "RSA-PSS".data ∨ algorithm = "Ed25519".data then
        .ok ()
      else
        .error (.InvalidMetadata "signature_algorithm".data algorithm
          "ECDSA-P256, ECDSA-P384, RSA-PSS, or Ed25519".data)
    | none =>
      .error (.InvalidMetadata "signature_algorithm".data "not specified".data
        "Must specify signature_algorithm for custom TEE types".data)

/-- `verify_tee_signature` (`signature_verification_wasm.rs`): the
per-TEE-type dispatcher. -/
def verify_tee_signature (tee_type : TeeType) (public_key report signature : Str)
    (metadata : Metadata) : Except TeeAttestationError Unit :=
  match tee_type with
  | .Sgx => verify_sgx_signature public_key report signature metadata
  | .Sev => verify_sev_signature public_key report signature metadata
  | .TrustZone => verify_trustzone_signature public_key report signature metadata
  | .Asylo => verify_asylo_signature public_key report signature metadata
  | .AzureAttestation => verify_azure_signature public_key report signature metadata
  | .AwsNitro => verify_aws_nitro_signature public_key report signature metadata
  | .Other _ => verify_generic_signature public_key report signature metadata

/-! ## `attestation_data.rs`: the attestation entity -/

/-- `TeeAttestation` (`attestation_data.rs`): one attestation record.
Timestamps are seconds (the source divides `env::block_timestamp()` by
`10 ^ 9`); the current time is passed explicitly to every operation that
reads the block timestamp. -/
structure TeeAttestation : Type where
  tee_type : TeeType
  public_key : Str
  report : Str
  signature : Str
  issued_at : Nat
  expires_at : Nat
  signer_id : Str
  version : Str
  metadata : Metadata
  updated_at : Nat
  is_active : Bool
  deriving DecidableEq, Repr

/-- The per-type required-metadata keys of
`TeeAttestation::validate_tee_metadata` (`attestation_data.rs`): SGX checks
its four-field array, SEV checks only `sev_policy`, TrustZone only
`trustzone_version`, and every other type checks nothing. -/
def requiredCreateFields : TeeType → List Str
  | .Sgx => sgxRequiredFields
  | .Sev => ["sev_policy".data]
  | .TrustZone => ["trustzone_version".data]
  | _ => []

/-- `TeeAttestation::validate_tee_metadata` (`attestation_data.rs`): the
first missing required key is reported as `MissingMetadata` with
`tee_type.to_string()` (the `Display` form). -/
def validate_tee_metadata (tee_type : TeeType) (metadata : Metadata) :
    Except TeeAttestationError Unit :=
  match firstMissingField (requiredCreateFields tee_type) metadata with
  | some f => .error (.MissingMetadata f tee_type.display)
  | none => .ok ()

namespace TeeAttestation

/-- `TeeAttestation::new` (`attestation_data.rs`): `now` is
`env::block_timestamp() / 10 ^ 9`; `expires_at` is computed (with `u64`
wrap-around) before any check, as in the source. -/
def new (now : Nat) (tee_type : TeeType) (public_key report signature : Str)
    (signer_id : Str) (expires_in_seconds : Nat) (metadata : Option Metadata) :
    Except TeeAttestationError TeeAttestation :=
  let expires_at := u64wrap (now + expires_in_seconds)
  if public_key = [] then
    .error (.InvalidReport "Public key cannot be empty".data)
  else if report = [] then
    .error (.InvalidReport "Report cannot be empty".data)
  else if signature = [] then
    .error (.InvalidSignature public_key "Signature cannot be empty".data)
  else if expires_in_seconds = 0 then
    .error (.InvalidExpiration expires_at now)
  else
    let metadata := metadata.getD []
    match validate_tee_metadata tee_type metadata with
    | .error e => .error e
    | .ok _ =>
      .ok { tee_type, public_key, report, signature, issued_at := now,
            expires_at, signer_id, version := "1.0.0".data, metadata,
            updated_at := now, is_active := true }

/-- `TeeAttestation::validate` (`attestation_data.rs`): active check first,
then expiration, then (optionally) the signature dispatcher. -/
def validate (a : TeeAttestation) (current_timestamp : Nat)
    (verify_signature : Bool) : Except TeeAttestationError Unit :=
  if !a.is_active then .error (.NotActive a.public_key)
  else if current_timestamp > a.expires_at then
    .error (.Expired a.public_key a.expires_at current_timestamp)
  else if verify_signature then
    verify_tee_signature a.tee_type a.public_key a.report a.signature a.metadata
  else .ok ()

/-- `TeeAttestation::is_valid` (`attestation_data.rs`). -/
def isValid (a : TeeAttestation) (current_timestamp : Nat) : Bool :=
  a.is_active && current_timestamp ≤ a.expires_at

/-- `TeeAttestation::extend_expiration` (`attestation_data.rs`): the source
performs `self.expires_at += additional_seconds` with no overflow check, so
the addition is `u64` wrap-around.  The mutation is modelled by returning
the updated record. -/
def extend_expiration (a : TeeAttestation) (now additional_seconds : Nat) :
    Except TeeAttestationError TeeAttestation :=
  if !a.is_active then .error (.NotActive a.public_key)
  else .ok { a with expires_at := u64wrap (a.expires_at + additional_seconds),
                    updated_at := now }

/-- `TeeAttestation::revoke` (`attestation_data.rs`): a second revocation
fails with `Revoked` carrying the previous `updated_at`. -/
def revoke (a : TeeAttestation) (now : Nat) :
    Except TeeAttestationError TeeAttestation :=
  if !a.is_active then .error (.Revoked a.public_key a.updated_at)
  else .ok { a with is_active := false, updated_at := now }

/-- `TeeAttestation::update_metadata` (`attestation_data.rs`): wholesale
replacement after revalidation. -/
def update_metadata (a : TeeAttestation) (now : Nat) (new_metadata : Metadata) :
    Except TeeAttestationError TeeAttestation :=
  if !a.is_active then .error (.NotActive a.public_key)
  else
    match validate_tee_metadata a.tee_type new_metadata with
    | .error e => .error e
    | .ok _ => .ok { a with metadata := new_metadata, updated_at := now }

end TeeAttestation

/-! ## `registry_impl.rs`: the attestation registry -/

/-- `TeeAttestationRegistry` (`registry_impl.rs`).  The NEAR `LookupMap`s
and `UnorderedSet`s are modelled as association lists / lists. -/
structure TeeAttestationRegistry : Type where
  attestations : List (Str × TeeAttestation)
  attestation_keys : List Str
  attestations_by_owner : List (Str × List Str)
  admin : Str
  is_paused : Bool
  deriving DecidableEq, Repr

/-- Host-provided context of one call: the authenticated signer account and
the block timestamp in seconds. -/
structure Env : Type where
  signer : Str
  now : Nat
  deriving DecidableEq, Repr

namespace TeeAttestationRegistry

/-- `TeeAttestationRegistry::new` (`registry_impl.rs`). -/
def init (admin : Str) : TeeAttestationRegistry :=
  { attestations := [], attestation_keys := [], attestations_by_owner := [],
    admin, is_paused := false }

/-- `register_attestation` (`registry_impl.rs`): pause gate, admin gate,
duplicate-key check, entity creation, then insertion into the primary map,
the key set and the signer's owner index.  The state is returned alongside
the result so that error cases observably leave it unchanged. -/
def register_attestation (env : Env) (st : TeeAttestationRegistry)
    (public_key : Str) (tee_type : TeeType) (report signature : Str)
    (expires_in_seconds : Nat) (metadata : Option Metadata) :
    Except TeeAttestationError TeeAttestation × TeeAttestationRegistry :=
  if st.is_paused then (.error .Paused, st)
  else if env.signer ≠ st.admin then
    (.error (.Unauthorized env.signer "admin".data), st)
  else if alistContains st.attestations public_key then
    (.error (.AlreadyExists public_key), st)
  else
    match TeeAttestation.new env.now tee_type public_key report signature
        env.signer expires_in_seconds metadata with
    | .error e => (.error e, st)
    | .ok attestation =>
      let owner_attestations :=
        setInsert ((alistGet st.attestations_by_owner env.signer).getD [])
          public_key
      (.ok attestation,
       { st with
         attestations := alistInsert st.attestations public_key attestation,
         attestation_keys := setInsert st.attestation_keys public_key,
         attestations_by_owner :=
           alistInsert st.attestations_by_owner env.signer owner_attestations })

/-- `revoke_attestation` (`registry_impl.rs`). -/
def revoke_attestation (env : Env) (st : TeeAttestationRegistry)
    (public_key : Str) :
    Except TeeAttestationError Unit × TeeAttestationRegistry :=
  if st.is_paused then (.error .Paused, st)
  else if env.signer ≠ st.admin then
    (.error (.Unauthorized env.signer "admin".data), st)
  else
    match alistGet st.attestations public_key with
    | none => (.error (.NotFound public_key), st)
    | some attestation =>
      match attestation.revoke env.now with
      | .error e => (.error e, st)
      | .ok a' =>
        (.ok (), { st with attestations := alistInsert st.attestations public_key a' })

/-- `extend_attestation` (`registry_impl.rs`). -/
def extend_attestation (env : Env) (st : TeeAttestationRegistry)
    (public_key : Str) (additional_seconds : Nat) :
    Except TeeAttestationError TeeAttestation × TeeAttestationRegistry :=
  if st.is_paused then (.error .Paused, st)
  else if env.signer ≠ st.admin then
    (.error (.Unauthorized env.signer "admin".data), st)
  else
    match alistGet st.attestations public_key with
    | none => (.error (.NotFound public_key), st)
    | some attestation =>
      match attestation.extend_expiration env.now additional_seconds with
      | .error e => (.error e, st)
      | .ok a' =>
        (.ok a', { st with attestations := alistInsert st.attestations public_key a' })

/-- `update_attestation_metadata` (`registry_impl.rs`). -/
def update_attestation_metadata (env : Env) (st : TeeAttestationRegistry)
    (public_key : Str) (new_metadata : Metadata) :
    Except TeeAttestationError Unit × TeeAttestationRegistry :=
  if st.is_paused then (.error .Paused, st)
  else if env.signer ≠ st.admin then
    (.error (.Unauthorized env.signer "admin".data), st)
  else
    match alistGet st.attestations public_key with
    | none => (.error (.NotFound public_key), st)
    | some attestation =>
      match attestation.update_metadata env.now new_metadata with
      | .error e => (.error e, st)
      | .ok a' =>
        (.ok (), { st with attestations := alistInsert st.attestations public_key a' })

/-- `pause` (`registry_impl.rs`): admin gate first, then the strict
already-paused check. -/
def pause (env : Env) (st : TeeAttestationRegistry) :
    Except TeeAttestationError Unit × TeeAttestationRegistry :=
  if env.signer ≠ st.admin then
    (.error (.Unauthorized env.signer "admin".data), st)
  else if st.is_paused then (.error .Paused, st)
  else (.ok (), { st with is_paused := true })

/-- `unpause` (`registry_impl.rs`). -/
def unpause (env : Env) (st : TeeAttestationRegistry) :
    Except TeeAttestationError Unit × TeeAttestationRegistry :=
  if env.signer ≠ st.admin then
    (.error (.Unauthorized env.signer "admin".data), st)
  else if !st.is_paused then (.error .NotPaused, st)
  else (.ok (), { st with is_paused := false })

end TeeAttestationRegistry

/-! ## Mutating-operation alphabet and reachability -/

/-- One mutating registry call (used to quantify over reachable states). -/
inductive RegOp : Type
  | register (public_key : Str) (tee_type : TeeType) (report signature : Str)
      (expires_in_seconds : Nat) (metadata : Option Metadata)
  | revoke (public_key : Str)
  | extend (public_key : Str) (additional_seconds : Nat)
  | updateMeta (public_key : Str) (new_metadata : Metadata)
  | pauseOp
  | unpauseOp

/-- State reached after one mutating call. -/
def applyOp (env : Env) (op : RegOp) (st : TeeAttestationRegistry) :
    TeeAttestationRegistry :=
  match op with
  | .register pk t r s ttl md =>
    (TeeAttestationRegistry.register_attestation env st pk t r s ttl md).2
  | .revoke pk => (TeeAttestationRegistry.revoke_attestation env st pk).2
  | .extend pk n => (TeeAttestationRegistry.extend_attestation env st pk n).2
  | .updateMeta pk m =>
    (TeeAttestationRegistry.update_attestation_metadata env st pk m).2
  | .pauseOp => (TeeAttestationRegistry.pause env st).2
  | .unpauseOp => (TeeAttestationRegistry.unpause env st).2

/-- State reached after a sequence of mutating calls. -/
def applyOps (trace : List (Env × RegOp)) (st : TeeAttestationRegistry) :
    TeeAttestationRegistry :=
  trace.foldl (fun s eo => applyOp eo.1 eo.2 s) st

/-! ## Auxiliary definitions for the claims -/

/-- Whether a lifecycle result is the `Expired` error (with any payload). -/
def isExpiredResult {α : Type} : Except TeeAttestationError α → Bool
  | .error (.Expired _ _ _) => true
  | _ => false

/-- Modelled from the spec: the ASN.1/DER encoding of an ECDSA signature
(`SEQUENCE` of two `INTEGER`s), which §4.4 claims is tried before the
fixed-width compact fallback.  No DER parsing exists in
`signature_verification_wasm.rs`; this definition follows the spec's words
so the claimed behaviour can be compared with the code's.  Single-byte
(short-form) lengths suffice for P-256 signature sizes. -/
def derParseEcdsaSignatureSpec (bs : Bytes) : Option (Nat × Nat) :=
  match bs with
  | 0x30 :: len :: rest =>
    if rest.length = len then
      match rest with
      | 2 :: rlen :: tail =>
        if rlen ≤ tail.length then
          match tail.drop rlen with
          | 2 :: slen :: tail2 =>
            if tail2.length = slen then
              some (bytesToNat (tail.take rlen), bytesToNat tail2)
            else none
          | _ => none
        else none
      | _ => none
    else none
  | _ => none

/-! ### Concrete instances used by counterexamples and witnesses -/

/-- A revoked attestation whose expiration lies in the past of the query
times used below. -/
def revokedExpiredAtt : TeeAttestation :=
  { tee_type := .Asylo, public_key := "k".data, report := "r".data,
    signature := "s".data, issued_at := 0, expires_at := 10,
    signer_id := "o".data, version := "1.0.0".data, metadata := [],
    updated_at := 0, is_active := false }

/-- An active attestation with a small expiration. -/
def activeAtt : TeeAttestation :=
  { tee_type := .Asylo, public_key := "k".data, report := "r".data,
    signature := "s".data, issued_at := 0, expires_at := 100,
    signer_id := "o".data, version := "1.0.0".data, metadata := [],
    updated_at := 0, is_active := true }

/-- An active attestation whose `expires_at` is the largest `u64` value. -/
def maxExpiryAtt : TeeAttestation :=
  { activeAtt with expires_at := 2 ^ 64 - 1 }

/-- The metadata the spec's §4.3 table requires for SEV
(`policy`, `family_id`, `image_id`). -/
def sevSpecTableMetadata : Metadata :=
  [("policy".data, "1".data), ("family_id".data, "2".data),
   ("image_id".data, "3".data)]

/-- An admin call environment. -/
def adminEnv : Env := { signer := "a".data, now := 5 }

/-- A registry that already holds `activeAtt` under key `"k"`. -/
def registryWithK : TeeAttestationRegistry :=
  { attestations := [("k".data, activeAtt)], attestation_keys := ["k".data],
    attestations_by_owner := [("a".data, ["k".data])], admin := "a".data,
    is_paused := false }

/-- Trace: the admin registers key `"k"` and then pauses the registry. -/
def registerThenPauseTrace : List (Env × RegOp) :=
  [(adminEnv, .register "k".data .Asylo "r".data "s".data 10 none),
   (adminEnv, .pauseOp)]

/-- The (paused) state reached by `registerThenPauseTrace` from a fresh
registry administered by `"a"`. -/
def pausedStateWithK : TeeAttestationRegistry :=
  applyOps registerThenPauseTrace (TeeAttestationRegistry.init "a".data)

/-- Base64 of the uncompressed SEC1 encoding of the P-256 base point (a
valid public key). -/
def basePointPk : Str :=
  "BGsX0fLhLEJH+Lzm5WOkQPJ3A32BLeszoPShOUXYmMKWT+NC4v4af5uO5+tKfA+eFivOM1drMV7Oy7ZAaDe/UfU=".data

/-- A well-formed DER ECDSA signature encoding `r = 1, s = 1`. -/
def derSigBytes : Bytes := [0x30, 6, 2, 1, 1, 2, 1, 1]

/-- Base64 of `derSigBytes`. -/
def derSigStr : Str := "MAYCAQECAQE=".data

/-- Complete SGX metadata (with a 64-character `sgx_mr_enclave`). -/
def sgxFullMetadata : Metadata :=
  [("sgx_mr_enclave".data, List.replicate 64 'a'),
   ("sgx_mr_signer".data, "b".data),
   ("sgx_isv_prod_id".data, "1".data),
   ("sgx_isv_svn".data, "1".data)]

/-- The 64-byte compact encoding of the signature `r = 1, s = 1`. -/
def compactSigBytes : Bytes :=
  List.replicate 31 0 ++ [1] ++ List.replicate 31 0 ++ [1]

/-- A non-admin call environment. -/
def strangerEnv : Env := { signer := "b".data, now := 5 }

/-- The record produced by revoking `activeAtt` at time `7`. -/
def revokedActiveAtt : TeeAttestation :=
  { activeAtt with is_active := false, updated_at := 7 }

/-! # Theorems

Helper lemmas first, then one theorem per claim (with its counterexample
and witness where required). -/

/-- The shared ECDSA tail never produces the `Expired` error. -/
theorem ecdsaVerifyTail_not_expired (pkD sD pk r s : Str) :
    isExpiredResult (ecdsaVerifyTail pkD sD pk r s) = false := by
  unfold ecdsaVerifyTail
  repeat' split
  all_goals rfl

/-- The signature dispatcher never produces the `Expired` error, whatever
the TEE type and inputs. -/
theorem verify_tee_signature_not_expired (t : TeeType) (pk r s : Str)
    (m : Metadata) : isExpiredResult (verify_tee_signature t pk r s m) = false := by
  cases t <;>
    unfold verify_tee_signature verify_sgx_signature verify_sev_signature
      verify_trustzone_signature verify_asylo_signature verify_azure_signature
      verify_aws_nitro_signature verify_generic_signature <;>
    repeat' split
  all_goals first
    | rfl
    | exact ecdsaVerifyTail_not_expired _ _ _ _ _

/-- Membership in an association list after an insert: the inserted key, or
any previously present key. -/
theorem alistContains_insert_iff {α : Type} (m : List (Str × α)) (k k' : Str)
    (v : α) :
    alistContains (alistInsert m k' v) k = true ↔
      k' = k ∨ alistContains m k = true := by
  have hne : Nonempty (Str × α) := ⟨(k, v)⟩
  induction m with
  | nil => simp [alistInsert, alistContains, beq_iff_eq]
  | cons hd tl ih =>
    by_cases heq : hd.1 = k'
    · simp [alistInsert, alistContains, beq_iff_eq, heq]
    · simp [alistInsert, alistContains, beq_iff_eq, heq] at ih ⊢
      tauto

/-- No mutating registry operation ever removes a key from the primary
attestation map (in particular, revocation does not). -/
theorem applyOp_preserves_key (e : Env) (op : RegOp)
    (st : TeeAttestationRegistry) (pk : Str)
    (h : alistContains st.attestations pk = true) :
    alistContains (applyOp e op st).attestations pk = true := by
  cases op <;>
    unfold applyOp TeeAttestationRegistry.register_attestation
      TeeAttestationRegistry.revoke_attestation
      TeeAttestationRegistry.extend_attestation
      TeeAttestationRegistry.update_attestation_metadata
      TeeAttestationRegistry.pause TeeAttestationRegistry.unpause <;>
    repeat' split
  all_goals simp_all [alistContains_insert_iff]

/-- Key persistence extended to arbitrary sequences of mutating calls. -/
theorem applyOps_preserves_key (trace : List (Env × RegOp))
    (st : TeeAttestationRegistry) (pk : Str)
    (h : alistContains st.attestations pk = true) :
    alistContains (applyOps trace st).attestations pk = true := by
  induction trace generalizing st with
  | nil => exact h
  | cons eo rest ih => exact ih _ (applyOp_preserves_key eo.1 eo.2 st pk h)

/-- If exactly the field `f` of `fields` is missing from `md`, the required
field scan reports `f`. -/
theorem firstMissing_of_unique (fields : List Str) (md : Metadata) (f : Str)
    (hf : f ∈ fields) (hmiss : alistContains md f = false)
    (hoth : ∀ g ∈ fields, g ≠ f → alistContains md g = true) :
    firstMissingField fields md = some f := by
  induction fields with
  | nil => cases hf
  | cons x xs ih =>
    by_cases hx : x = f
    · subst hx
      simp [firstMissingField, List.find?, hmiss]
    · have hc : alistContains md x = true :=
        hoth x (List.mem_cons_self x xs) (fun hxf => hx hxf)
      have hf' : f ∈ xs := by
        rcases List.mem_cons.mp hf with h | h
        · exact absurd h.symm hx
        · exact h
      have := ih hf' (fun g hg hgf => hoth g (List.mem_cons_of_mem _ hg) hgf)
      simpa [firstMissingField, List.find?, hc] using this

/-- Claim C1 (counterexample): a revoked attestation whose `expires_at` lies
in the past fails `validate` with `NotActive`, not with `Expired`, so the
claimed "Expired iff `now > expires_at`, independently of `is_active`" is
false at this input. -/
theorem validate_revoked_expired_counterexample :
    revokedExpiredAtt.is_active = false ∧
    revokedExpiredAtt.expires_at < 20 ∧
    isExpiredResult (revokedExpiredAtt.validate 20 false) = false ∧
    revokedExpiredAtt.validate 20 false = .error (.NotActive "k".data) := by
  decide

/-- Claim C1 (amended): `validate(now, verify_signature)` fails with the
`Expired` error iff the attestation is active and `now > expires_at`; a
revoked attestation reports `NotActive` regardless of expiry, because the
active check precedes the expiry check, and the signature dispatcher never
produces `Expired`. -/
theorem validate_expired_iff (a : TeeAttestation) (now : Nat) (vs : Bool) :
    isExpiredResult (a.validate now vs) = true ↔
      a.is_active = true ∧ a.expires_at < now := by
  unfold TeeAttestation.validate
  cases ha : a.is_active with
  | false => simp [isExpiredResult]
  | true =>
    simp only [Bool.not_true, Bool.false_eq_true, if_false]
    by_cases hexp : now > a.expires_at
    · simp [hexp, isExpiredResult, Nat.lt_of_lt_of_le]
    · cases vs with
      | false => simp [hexp, isExpiredResult]
      | true => simp [hexp, verify_tee_signature_not_expired]

/-- Claim C2 (counterexample): in the reachable state where the admin
registered key `k` and then paused the registry, registering `k` again
returns `Paused`, not `AlreadyExists`, so the claim's unconditional
"returns AlreadyExists" is false at this input. -/
theorem registered_key_paused_counterexample :
    alistContains pausedStateWithK.attestations "k".data = true ∧
    pausedStateWithK.is_paused = true ∧
    (TeeAttestationRegistry.register_attestation adminEnv pausedStateWithK
      "k".data .Asylo "r".data "s".data 10 none).1 = .error .Paused := by
  decide

/-- Claim C2 (amended): a key present in the primary map stays present under
every further mutating operation (revocation never removes it), a repeated
`register` under that key never succeeds and leaves the whole registry
unchanged, and — when the registry is not paused and the caller is the
admin — it fails precisely with `AlreadyExists`; a successful registration
always puts the key into the primary map. -/
theorem registered_key_never_reusable (st : TeeAttestationRegistry) (pk : Str)
    (e : Env) (t : TeeType) (r s : Str) (ttl : Nat) (md : Option Metadata)
    (trace : List (Env × RegOp))
    (h : alistContains st.attestations pk = true) :
    alistContains (applyOps trace st).attestations pk = true ∧
    (TeeAttestationRegistry.register_attestation e st pk t r s ttl md).2 = st ∧
    (∀ a, (TeeAttestationRegistry.register_attestation e st pk t r s ttl md).1 ≠
      .ok a) ∧
    (st.is_paused = false → e.signer = st.admin →
      (TeeAttestationRegistry.register_attestation e st pk t r s ttl md).1 =
        .error (.AlreadyExists pk)) ∧
    (∀ st' : TeeAttestationRegistry, ∀ a,
      (TeeAttestationRegistry.register_attestation e st' pk t r s ttl md).1 =
        .ok a →
      alistContains
        (TeeAttestationRegistry.register_attestation e st' pk t r s ttl
          md).2.attestations pk = true) := by
  refine ⟨applyOps_preserves_key trace st pk h, ?_, ?_, ?_, ?_⟩
  · unfold TeeAttestationRegistry.register_attestation
    by_cases hp : st.is_paused <;> by_cases hadm : e.signer = st.admin <;>
      simp [hp, hadm, h]
  · unfold TeeAttestationRegistry.register_attestation
    by_cases hp : st.is_paused <;> by_cases hadm : e.signer = st.admin <;>
      simp [hp, hadm, h]
  · intro hp hadm
    unfold TeeAttestationRegistry.register_attestation
    simp [hp, hadm, h]
  · intro st' a hok
    unfold TeeAttestationRegistry.register_attestation at hok ⊢
    repeat' split at hok <;> simp_all [alistContains_insert_iff]

/-- Claim C2 (witness): after the admin revokes key `k`, the key is still in
the primary map, and re-registering it fails with `AlreadyExists`. -/
theorem registered_key_never_reusable_witness :
    alistContains
      (applyOps [(adminEnv, .revoke "k".data)] registryWithK).attestations
      "k".data = true ∧
    (TeeAttestationRegistry.register_attestation adminEnv registryWithK
      "k".data .Asylo "r".data "s".data 10 none).1 =
      .error (.AlreadyExists "k".data) := by
  have h := registered_key_never_reusable registryWithK "k".data adminEnv
    .Asylo "r".data "s".data 10 none [(adminEnv, .revoke "k".data)] (by decide)
  exact ⟨h.1, h.2.2.2.1 (by decide) (by decide)⟩

/-- Claim C3: while `is_paused`, `register`/`revoke`/`extend`/
`update_metadata` all fail with `Paused` (for any caller, since the pause
gate precedes the admin gate) and leave the state unchanged; `pause` on a
paused registry and `unpause` on a non-paused registry are errors — exactly
`Paused` / `NotPaused` for the admin — and never no-ops. -/
theorem registry_pause_gating (st : TeeAttestationRegistry) (e : Env) (pk : Str)
    (t : TeeType) (r s : Str) (ttl : Nat) (md : Option Metadata) (m2 : Metadata) :
    (st.is_paused = true →
      TeeAttestationRegistry.register_attestation e st pk t r s ttl md =
        (.error .Paused, st) ∧
      TeeAttestationRegistry.revoke_attestation e st pk = (.error .Paused, st) ∧
      TeeAttestationRegistry.extend_attestation e st pk ttl =
        (.error .Paused, st) ∧
      TeeAttestationRegistry.update_attestation_metadata e st pk m2 =
        (.error .Paused, st)) ∧
    (st.is_paused = true → e.signer = st.admin →
      TeeAttestationRegistry.pause e st = (.error .Paused, st)) ∧
    (st.is_paused = false → e.signer = st.admin →
      TeeAttestationRegistry.unpause e st = (.error .NotPaused, st)) ∧
    (st.is_paused = true →
      (TeeAttestationRegistry.pause e st).2 = st ∧
      ∀ u, (TeeAttestationRegistry.pause e st).1 ≠ .ok u) ∧
    (st.is_paused = false →
      (TeeAttestationRegistry.unpause e st).2 = st ∧
      ∀ u, (TeeAttestationRegistry.unpause e st).1 ≠ .ok u) := by
  refine ⟨?_, ?_, ?_, ?_, ?_⟩
  · intro hp
    unfold TeeAttestationRegistry.register_attestation
      TeeAttestationRegistry.revoke_attestation
      TeeAttestationRegistry.extend_attestation
      TeeAttestationRegistry.update_attestation_metadata
    simp [hp]
  · intro hp hadm
    unfold TeeAttestationRegistry.pause
    simp [hp, hadm]
  · intro hp hadm
    unfold TeeAttestationRegistry.unpause
    simp [hp, hadm]
  · intro hp
    unfold TeeAttestationRegistry.pause
    by_cases hadm : e.signer = st.admin <;> simp [hp, hadm]
  · intro hp
    unfold TeeAttestationRegistry.unpause
    by_cases hadm : e.signer = st.admin <;> simp [hp, hadm]

/-- Claim C3 (witness): on the concrete paused registry every mutating call
fails with `Paused` unchanged, redundant `pause` fails with `Paused`, and on
the concrete non-paused registry `unpause` fails with `NotPaused`. -/
theorem registry_pause_gating_witness :
    TeeAttestationRegistry.register_attestation adminEnv pausedStateWithK
      "k2".data .Asylo "r".data "s".data 10 none =
      (.error .Paused, pausedStateWithK) ∧
    TeeAttestationRegistry.pause adminEnv pausedStateWithK =
      (.error .Paused, pausedStateWithK) ∧
    TeeAttestationRegistry.unpause adminEnv registryWithK =
      (.error .NotPaused, registryWithK) := by
  have h1 := registry_pause_gating pausedStateWithK adminEnv "k2".data .Asylo
    "r".data "s".data 10 none []
  have h2 := registry_pause_gating registryWithK adminEnv "k2".data .Asylo
    "r".data "s".data 10 none []
  exact ⟨(h1.1 (by decide)).1, h1.2.1 (by decide) (by decide),
    h2.2.2.1 (by decide) (by decide)⟩

/-- Claim C4 (counterexample): with the metadata of the spec's §4.3 SEV row
(`policy`, `family_id`, `image_id`), non-empty inputs and `ttl > 0`,
`create` does not succeed: the code requires the key `sev_policy` and fails
with `MissingMetadata("sev_policy")`. -/
theorem create_sev_spec_keys_counterexample :
    TeeAttestation.new 5 .Sev "k".data "r".data "s".data "o".data 10
      (some sevSpecTableMetadata) =
      .error (.MissingMetadata "sev_policy".data "sev".data) := by
  decide

/-- Claim C4 (amended): the required-key sets actually enforced by `create`
are SGX ↦ {sgx_mr_enclave, sgx_mr_signer, sgx_isv_prod_id, sgx_isv_svn},
SEV ↦ {sev_policy}, TrustZone ↦ {trustzone_version}, and ∅ for every other
type; with them present (and non-empty key/report/signature and `ttl > 0`)
`create` succeeds, and removing exactly one required key fails with
`MissingMetadata` naming exactly that key. -/
theorem create_required_metadata (t : TeeType) (pk r s o : Str) (now ttl : Nat)
    (md : Metadata) (hpk : pk ≠ []) (hr : r ≠ []) (hs : s ≠ [])
    (httl : ttl ≠ 0) :
    ((∀ f ∈ requiredCreateFields t, alistContains md f = true) →
      ∃ a, TeeAttestation.new now t pk r s o ttl (some md) = .ok a) ∧
    (∀ f ∈ requiredCreateFields t, alistContains md f = false →
      (∀ g ∈ requiredCreateFields t, g ≠ f → alistContains md g = true) →
      TeeAttestation.new now t pk r s o ttl (some md) =
        .error (.MissingMetadata f t.display)) := by
  constructor
  · intro hall
    have hnone : firstMissingField (requiredCreateFields t) md = none := by
      unfold firstMissingField
      apply List.find?_eq_none.mpr
      intro x hx
      simp [hall x hx]
    unfold TeeAttestation.new validate_tee_metadata
    simp [hpk, hr, hs, httl, hnone]
  · intro f hf hmiss hoth
    have hsome := firstMissing_of_unique _ md f hf hmiss hoth
    unfold TeeAttestation.new validate_tee_metadata
    simp [hpk, hr, hs, httl, hsome]

/-- Claim C4 (witness): with `sev_policy` present SEV creation succeeds;
with it removed, creation fails naming `sev_policy`. -/
theorem create_required_metadata_witness :
    (∃ a, TeeAttestation.new 5 .Sev "k".data "r".data "s".data "o".data 10
      (some [("sev_policy".data, "1".data)]) = .ok a) ∧
    TeeAttestation.new 5 .Sev "k".data "r".data "s".data "o".data 10
      (some []) = .error (.MissingMetadata "sev_policy".data "sev".data) := by
  have h1 := create_required_metadata .Sev "k".data "r".data "s".data "o".data
    5 10 [("sev_policy".data, "1".data)] (by decide) (by decide) (by decide)
    (by decide)
  have h2 := create_required_metadata .Sev "k".data "r".data "s".data "o".data
    5 10 [] (by decide) (by decide) (by decide) (by decide)
  exact ⟨h1.1 (by decide),
    h2.2 "sev_policy".data (by decide) (by decide) (by decide)⟩

/-- Claim C5 (counterexample): on an active attestation with
`expires_at = 2 ^ 64 - 1`, extending by one second returns `Ok` with the
expiration wrapped to `0` — not the claimed `Internal` error. -/
theorem extend_overflow_wraps_counterexample :
    TeeAttestation.extend_expiration maxExpiryAtt 5 1 =
      .ok { maxExpiryAtt with expires_at := 0, updated_at := 5 } := by
  decide

/-- Claim C5 (amended): `extend_expiration` returns `NotActive` when the
attestation is revoked; when active it always returns `Ok` with
`expires_at` set to `(expires_at + seconds) mod 2 ^ 64` — the addition is
unchecked, so on `u64` overflow it wraps instead of returning `Internal`
(which is never returned) — and when no overflow occurs `expires_at`
increases by exactly `seconds`. -/
theorem extend_expiration_unchecked (a : TeeAttestation) (now n : Nat) :
    (a.is_active = false →
      a.extend_expiration now n = .error (.NotActive a.public_key)) ∧
    (a.is_active = true →
      a.extend_expiration now n =
        .ok { a with expires_at := (a.expires_at + n) % 2 ^ 64,
                     updated_at := now }) ∧
    (a.is_active = true → a.expires_at + n < 2 ^ 64 →
      ∃ a', a.extend_expiration now n = .ok a' ∧
        a'.expires_at = a.expires_at + n) ∧
    (∀ msg, a.extend_expiration now n ≠ .error (.Internal msg)) := by
  unfold TeeAttestation.extend_expiration u64wrap
  cases ha : a.is_active <;> simp [Nat.mod_eq_of_lt]

/-- Claim C5 (witness): extending the concrete active attestation by five
seconds yields exactly the wrapped-sum record (here without overflow). -/
theorem extend_expiration_unchecked_witness :
    TeeAttestation.extend_expiration activeAtt 7 5 =
      .ok { activeAtt with expires_at := (activeAtt.expires_at + 5) % 2 ^ 64,
                           updated_at := 7 } :=
  (extend_expiration_unchecked activeAtt 7 5).2.1 (by decide)

/-- Claim C6: for `Other` TEE types, any recognised `signature_algorithm`
value makes the dispatcher return `Ok(())` without any verification (the
source leaves verification as a TODO), while an absent or unknown value
yields `InvalidMetadata` — evaluating the code at the claim's failing
inputs. -/
theorem verify_generic_silently_succeeds :
    verify_tee_signature (.Other "custom".data) "cGs=".data "cg==".data
      "c2ln".data [("signature_algorithm".data, "ECDSA-P256".data)] = .ok () ∧
    verify_generic_signature "cGs=".data "cg==".data "c2ln".data
      [("signature_algorithm".data, "ECDSA-P384".data)] = .ok () ∧
    verify_generic_signature "cGs=".data "cg==".data "c2ln".data
      [("signature_algorithm".data, "RSA-PSS".data)] = .ok () ∧
    verify_generic_signature "cGs=".data "cg==".data "c2ln".data
      [("signature_algorithm".data, "Ed25519".data)] = .ok () ∧
    verify_generic_signature "cGs=".data "cg==".data "c2ln".data [] =
      .error (.InvalidMetadata "signature_algorithm".data
        "not specified".data
        "Must specify signature_algorithm for custom TEE types".data) ∧
    verify_generic_signature "cGs=".data "cg==".data "c2ln".data
      [("signature_algorithm".data, "HMAC".data)] =
      .error (.InvalidMetadata "signature_algorithm".data "HMAC".data
        "ECDSA-P256, ECDSA-P384, RSA-PSS, or Ed25519".data) := by
  decide

/-- Claim C7: on a non-paused registry, a non-admin caller's `register`
fails with `Unauthorized{caller, required: "admin"}` and the entire state —
primary map, key set and owner index — is unchanged. -/
theorem register_unauthorized (e : Env) (st : TeeAttestationRegistry)
    (pk : Str) (t : TeeType) (r s : Str) (ttl : Nat) (md : Option Metadata)
    (hp : st.is_paused = false) (hc : e.signer ≠ st.admin) :
    TeeAttestationRegistry.register_attestation e st pk t r s ttl md =
      (.error (.Unauthorized e.signer "admin".data), st) := by
  unfold TeeAttestationRegistry.register_attestation
  simp [hp, hc]

/-- Claim C7 (witness): the concrete non-admin caller `b` is rejected with
`Unauthorized` and the concrete registry is returned unchanged. -/
theorem register_unauthorized_witness :
    TeeAttestationRegistry.register_attestation strangerEnv registryWithK
      "k2".data .Asylo "r".data "s".data 10 none =
      (.error (.Unauthorized "b".data "admin".data), registryWithK) :=
  register_unauthorized strangerEnv registryWithK "k2".data .Asylo "r".data
    "s".data 10 none (by decide) (by decide)

/-- Claim C8 (counterexample): a well-formed DER ECDSA signature (here
`SEQUENCE{INTEGER 1, INTEGER 1}`, whose base64 decodes under the pipeline)
is rejected by the compact-only slice conversion and by the full SGX
verifier as `Invalid ECDSA P-256 signature format`, instead of being
accepted for verification as the claimed DER-first parse would do. -/
theorem der_signature_rejected_counterexample :
    derParseEcdsaSignatureSpec derSigBytes = some (1, 1) ∧
    base64Decode derSigStr = some derSigBytes ∧
    p256SignatureFromSlice derSigBytes = none ∧
    verify_sgx_signature basePointPk "AA==".data derSigStr sgxFullMetadata =
      .error (.InvalidSignature basePointPk
        "Invalid ECDSA P-256 signature format".data) := by
  decide

/-- Claim C8 (amended): the ECDSA verifiers parse the base64-decoded
signature bytes only through the fixed-width compact (`r ‖ s`) slice
conversion — there is no ASN.1/DER parse and no fallback — so every
accepted signature encoding is exactly 64 bytes and well-formed DER
encodings of other lengths are rejected as malformed. -/
theorem p256_signature_accepts_only_compact (bs : Bytes)
    (h : (p256SignatureFromSlice bs).isSome = true) : bs.length = 64 := by
  unfold p256SignatureFromSlice at h
  by_cases hl : bs.length = 64
  · exact hl
  · simp [hl] at h

/-- Claim C8 (witness): the 64-byte compact encoding of `r = s = 1` is
accepted, and the theorem reports its length. -/
theorem p256_signature_accepts_only_compact_witness :
    (p256SignatureFromSlice compactSigBytes).isSome = true ∧
    compactSigBytes.length = 64 :=
  ⟨by decide, p256_signature_accepts_only_compact compactSigBytes (by decide)⟩

/-- Claim C9: formatting then parsing round-trips on every `TeeType`,
including `Other(s)` for every string `s`. -/
theorem teeType_roundtrip (t : TeeType) : TeeType.fromStr t.display = .ok t := by
  cases t with
  | Other s =>
    show TeeType.fromStr ("other:".data ++ s) = .ok (.Other s)
    have hpre : "other:".data.isPrefixOf ("other:".data ++ s) = true := by
      simp +decide [List.isPrefixOf]
    have hdrop : ("other:".data ++ s).drop 6 = s :=
      List.drop_left "other:".data s
    simp +decide [TeeType.fromStr, strToLower, hpre, hdrop]
  | Sgx => decide
  | Sev => decide
  | TrustZone => decide
  | Asylo => decide
  | AzureAttestation => decide
  | AwsNitro => decide

/-- Claim C10: a successful `revoke` changes only `is_active` (to `false`)
and `updated_at`; a successful `extend_expiration` changes only
`expires_at` and `updated_at`; a successful `update_metadata` changes only
`metadata` and `updated_at`; all other fields are unchanged in each case. -/
theorem lifecycle_frame (a : TeeAttestation) (now n : Nat) (md : Metadata) :
    (∀ a', a.revoke now = .ok a' →
      a'.is_active = false ∧ a'.updated_at = now ∧
      a'.tee_type = a.tee_type ∧ a'.public_key = a.public_key ∧
      a'.report = a.report ∧ a'.signature = a.signature ∧
      a'.issued_at = a.issued_at ∧ a'.signer_id = a.signer_id ∧
      a'.version = a.version ∧ a'.expires_at = a.expires_at ∧
      a'.metadata = a.metadata) ∧
    (∀ a', a.extend_expiration now n = .ok a' →
      a'.updated_at = now ∧
      a'.tee_type = a.tee_type ∧ a'.public_key = a.public_key ∧
      a'.report = a.report ∧ a'.signature = a.signature ∧
      a'.issued_at = a.issued_at ∧ a'.signer_id = a.signer_id ∧
      a'.version = a.version ∧ a'.is_active = a.is_active ∧
      a'.metadata = a.metadata) ∧
    (∀ a', a.update_metadata now md = .ok a' →
      a'.metadata = md ∧ a'.updated_at = now ∧
      a'.tee_type = a.tee_type ∧ a'.public_key = a.public_key ∧
      a'.report = a.report ∧ a'.signature = a.signature ∧
      a'.issued_at = a.issued_at ∧ a'.signer_id = a.signer_id ∧
      a'.version = a.version ∧ a'.is_active = a.is_active ∧
      a'.expires_at = a.expires_at) := by
  refine ⟨?_, ?_, ?_⟩ <;> intro a' h
  · unfold TeeAttestation.revoke at h
    cases ha : a.is_active <;> rw [ha] at h <;> simp at h
    simp [← h, ha]
  · unfold TeeAttestation.extend_expiration at h
    cases ha : a.is_active <;> rw [ha] at h <;> simp at h
    simp [← h, ha]
  · unfold TeeAttestation.update_metadata at h
    cases ha : a.is_active <;> rw [ha] at h <;> simp at h
    cases hv : validate_tee_metadata a.tee_type md <;> rw [hv] at h <;>
      simp at h
    simp [← h, ha]

/-- Claim C10 (witness): revoking the concrete active attestation flips
`is_active`, stamps `updated_at`, and leaves expiry and metadata intact. -/
theorem lifecycle_frame_witness :
    revokedActiveAtt.is_active = false ∧ revokedActiveAtt.updated_at = 7 ∧
    revokedActiveAtt.expires_at = activeAtt.expires_at ∧
    revokedActiveAtt.metadata = activeAtt.metadata := by
  have h := (lifecycle_frame activeAtt 7 5 []).1 revokedActiveAtt (by decide)
  exact ⟨h.1, h.2.1, h.2.2.2.2.2.2.2.2.2.1, h.2.2.2.2.2.2.2.2.2.2⟩

end TeeCore
